import Mathlib

/-!
Verification development for delivops/task-deploy-action.

Shallow embedding of the two generators:
  src/scripts/generate_task_def.py      (ECS task definitions)
  src/scripts/generate_step_function.py (Step Function state machines)

YAML loading and file writing are treated as external collaborators: the
parsed configuration document is passed to the Lean functions directly, as
a record whose optional fields model absent YAML keys. Python string
formatting of an optional value (f-strings render None as the literal
string None) is modelled by pyStr.
-/

namespace TaskDeploy

/-- Python f-string rendering of an optional string: None prints as the
four-character string None. -/
def pyStr : Option String → String
  | none => "None"
  | some s => s

/-- Python truthiness of an optional string: None and the empty string are
falsy. -/
def pyTruthy : Option String → Bool
  | none => false
  | some s => s ≠ ""

/-- Python str.strip with no argument: remove leading and trailing
whitespace (modelled on the character list of the string, so that proofs
can evaluate it). -/
def pyStrip (s : String) : String :=
  ⟨((s.data.dropWhile Char.isWhitespace).reverse.dropWhile
      Char.isWhitespace).reverse⟩

/-- Python c in s for a character c: membership in the character list. -/
def pyContains (s : String) (c : Char) : Bool :=
  s.data.contains c

/-- Python s.split(sep) for a single-character separator, on character
lists: splitting the empty string yields one empty part. -/
def splitChar (sep : Char) : List Char → List (List Char)
  | [] => [[]]
  | a :: rest =>
      match splitChar sep rest with
      | [] => [[]]
      | r :: rs => if a = sep then [] :: r :: rs else (a :: r) :: rs

/-- Python s.split(sep) for a single-character separator. -/
def pySplit (sep : Char) (s : String) : List String :=
  (splitChar sep s.data).map fun cs => ⟨cs⟩

/-- Python s.split(sep, 1): the part before the first separator, and the
part after it when the separator occurs. -/
def splitFirst (sep : Char) : List Char → List Char × Option (List Char)
  | [] => ([], none)
  | a :: rest =>
      if a = sep then ([], some rest)
      else
        let r := splitFirst sep rest
        (a :: r.1, r.2)

/-! ## Input configuration (the parsed YAML document)

Each YAML list of single-key mappings (envs, secrets, additional_ports) is
modelled as a list of pairs, matching the shape the generator iterates
over. A missing key is none. -/

/-- The health_check block of the workload YAML. -/
structure HealthCheckCfg where
  command : Option String
  interval : Option Nat
  timeout : Option Nat
  retries : Option Nat
  start_period : Option Nat
  deriving DecidableEq, Repr

/-- The otel_collector block of the workload YAML. -/
structure OtelCfg where
  image_name : Option String
  deriving DecidableEq, Repr

/-- The fluent_bit_collector block of the workload YAML. -/
structure FluentBitCfg where
  image_name : Option String
  deriving DecidableEq, Repr

/-- The workload configuration document read by generate_task_definition.
Fields are optional where the code supplies a default via dict.get. -/
structure Config where
  name : Option String
  cpu : Option Nat
  memory : Option Nat
  otel_collector : Option OtelCfg
  cpu_arch : Option String
  command : Option (List String)
  entrypoint : Option (List String)
  health_check : Option HealthCheckCfg
  replica_count : Option String
  fluent_bit_collector : Option FluentBitCfg
  envs : Option (List (String × String))
  secrets : Option (List (String × String))
  secret_files : Option (List String)
  port : Option Nat
  additional_ports : Option (List (String × Nat))
  role_arn : Option String
  deriving DecidableEq, Repr

/-- A Config with every key absent, for building concrete test inputs. -/
def emptyConfig : Config :=
  { name := none, cpu := none, memory := none, otel_collector := none
    cpu_arch := none, command := none, entrypoint := none, health_check := none
    replica_count := none, fluent_bit_collector := none, envs := none
    secrets := none, secret_files := none, port := none
    additional_ports := none, role_arn := none }

/-! ## Output documents (the generated task definition) -/

/-- One entry of a portMappings list.  The second otel mapping carries no
appProtocol key, hence the Option. -/
structure PortMapping where
  name : String
  containerPort : Nat
  hostPort : Nat
  protocol : String
  appProtocol : Option String
  deriving DecidableEq, Repr

/-- The logConfiguration block of a container; options is the JSON options
object as an ordered key-value list. -/
structure LogConfiguration where
  logDriver : String
  options : List (String × String)
  deriving DecidableEq, Repr

/-- One entry of a dependsOn list. -/
structure DependsOn where
  containerName : String
  condition : String
  deriving DecidableEq, Repr

/-- One entry of an environment list. -/
structure KeyValue where
  name : String
  value : String
  deriving DecidableEq, Repr

/-- One entry of a secrets list. -/
structure SecretRef where
  name : String
  valueFrom : String
  deriving DecidableEq, Repr

/-- The healthCheck block of a container. -/
structure HealthCheck where
  command : List String
  interval : Nat
  timeout : Nat
  retries : Nat
  startPeriod : Nat
  deriving DecidableEq, Repr

/-- One entry of a mountPoints list. -/
structure MountPoint where
  sourceVolume : String
  containerPath : String
  deriving DecidableEq, Repr

/-- The firelensConfiguration block of the fluent-bit container. -/
structure FirelensConfiguration where
  type : String
  options : List (String × String)
  deriving DecidableEq, Repr

/-- A container definition.  Keys the Python code only sometimes inserts
into the dict are Options; none models an absent key. -/
structure ContainerDefinition where
  name : String
  image : String
  essential : Bool
  environment : List KeyValue
  command : Option (List String)
  entryPoint : Option (List String)
  secrets : Option (List SecretRef)
  logConfiguration : LogConfiguration
  healthCheck : Option HealthCheck
  portMappings : Option (List PortMapping)
  mountPoints : Option (List MountPoint)
  dependsOn : Option (List DependsOn)
  firelensConfiguration : Option FirelensConfiguration
  deriving DecidableEq, Repr

/-- One entry of the volumes list; host is the (always empty) host object. -/
structure Volume where
  name : String
  host : List (String × String)
  deriving DecidableEq, Repr

/-- The runtimePlatform block. -/
structure RuntimePlatform where
  cpuArchitecture : String
  operatingSystemFamily : String
  deriving DecidableEq, Repr

/-- The generated ECS task definition document. -/
structure TaskDefinition where
  containerDefinitions : List ContainerDefinition
  cpu : String
  memory : String
  runtimePlatform : RuntimePlatform
  family : String
  taskRoleArn : String
  executionRoleArn : String
  networkMode : String
  requiresCompatibilities : List String
  volumes : Option (List Volume)
  deriving DecidableEq, Repr

/-! ## generate_task_def.py, lines 26-111: per-config derived values -/

/-- Line 27: app_name = config.get('name', 'app'). -/
def app_name (c : Config) : String := c.name.getD "app"

/-- Lines 31-37: otel_collector_image is None when the otel_collector block
is absent; otherwise the stripped image_name, falling back to the public
default image when blank. -/
def otel_collector_image (c : Config) : Option String :=
  match c.otel_collector with
  | none => none
  | some oc =>
      let s := pyStrip (oc.image_name.getD "")
      some (if s = "" then
              "public.ecr.aws/aws-observability/aws-otel-collector:latest"
            else s)

/-- Lines 43-52: the healthCheck block, built only when health_check has a
truthy command, with numeric defaults 30/5/3/10. -/
def health (c : Config) : Option HealthCheck :=
  match c.health_check with
  | none => none
  | some hc =>
      match hc.command with
      | none => none
      | some cmd =>
          if cmd = "" then none
          else some
            { command := ["CMD-SHELL", cmd]
              interval := hc.interval.getD 30
              timeout := hc.timeout.getD 5
              retries := hc.retries.getD 3
              startPeriod := hc.start_period.getD 10 }

/-- Line 59: use_fluent_bit = bool(fluent_bit_collector and
fluent_bit_collector.get('image_name', '').strip()).  An absent block, an
empty block and a blank image name are all falsy. -/
def use_fluent_bit (c : Config) : Bool :=
  match c.fluent_bit_collector with
  | none => false
  | some fb => pyStrip (fb.image_name.getD "") ≠ ""

/-- Line 62: the stripped fluent_bit_collector.image_name. -/
def fluent_bit_image_name (c : Config) : String :=
  pyStrip ((c.fluent_bit_collector.getD { image_name := none }).image_name.getD "")

/-- Lines 61-65: the fluent-bit sidecar image string.  The f-string at line
63 interpolates the raw registry argument, so a None registry yields the
literal prefix None/. -/
def fluent_bit_image (c : Config) (registry : Option String) : String :=
  if use_fluent_bit c then pyStr registry ++ "/" ++ fluent_bit_image_name c
  else ""

/-- Lines 68-74: the environment list built from envs (each list entry is a
single-key mapping, modelled as a pair). -/
def environment (c : Config) : List KeyValue :=
  (c.envs.getD []).map fun kv => { name := kv.1, value := kv.2 }

/-- Lines 77-84: the secrets list; each pair (key, base_arn) becomes
valueFrom = base_arn:key:: . -/
def secretRefs (c : Config) : List SecretRef :=
  (c.secrets.getD []).map fun kv =>
    { name := kv.1, valueFrom := kv.2 ++ ":" ++ kv.1 ++ "::" }

/-- Line 88: has_secret_files = len(secret_files) > 0. -/
def has_secret_files (c : Config) : Bool :=
  (c.secret_files.getD []).length > 0

/-- Lines 99-109: parse_image_parts.  Strips a registry part (a first
slash-segment containing a dot), then splits an embedded :tag out of the image
name; a falsy tag argument (None or the empty string) is replaced by the
embedded tag. -/
def parse_image_parts (image_name : String) (tag : Option String) :
    String × Option String :=
  let image_name :=
    if pyContains image_name '/' ∧
        pyContains ((pySplit '/' image_name).headD "") '.' then
      String.intercalate "/" (pySplit '/' image_name).tail
    else image_name
  if pyContains image_name ':' then
    let p := splitFirst ':' image_name.data
    let name : String := ⟨p.1⟩
    let image_tag : String := ⟨p.2.getD []⟩
    let tag := if pyTruthy tag then tag else some image_tag
    (name, tag)
  else (image_name, tag)

/-- Lines 111-116: the app image URI; a falsy registry omits the registry
prefix, and the f-string renders a None tag as the literal None. -/
def image_uri (registry : Option String) (image_name : String)
    (tag : Option String) : String :=
  let p := parse_image_parts image_name tag
  if pyTruthy registry then pyStr registry ++ "/" ++ p.1 ++ ":" ++ pyStr p.2
  else p.1 ++ ":" ++ pyStr p.2

/-! ## generate_task_def.py, lines 119-356: containers and assembly -/

/-- Lines 149-178: the port mappings list.  The main port (if truthy - zero
is falsy in Python) becomes a mapping named default; each additional_ports
entry contributes a mapping with its own name.  All mappings set
containerPort = hostPort = the port, protocol tcp, appProtocol http. -/
def port_mappings (c : Config) : List PortMapping :=
  (match c.port with
   | some p =>
       if p ≠ 0 then
         [{ name := "default", containerPort := p, hostPort := p
            protocol := "tcp", appProtocol := some "http" }]
       else []
   | none => []) ++
  (c.additional_ports.getD []).map fun np =>
    { name := np.1, containerPort := np.2, hostPort := np.2
      protocol := "tcp", appProtocol := some "http" }

/-- Lines 184-206: the dependsOn list of the app container: on the init
container with condition SUCCESS when secret files are configured, then on
fluent-bit with condition START when fluent-bit is enabled. -/
def app_depends_on (c : Config) : List DependsOn :=
  (if has_secret_files c then
    [{ containerName := "init-container-for-secret-files", condition := "SUCCESS" }]
   else []) ++
  (if use_fluent_bit c then
    [{ containerName := "fluent-bit", condition := "START" }]
   else [])

/-- Lines 119-208: the app container. -/
def app_container (c : Config) (cluster_name aws_region : String)
    (registry : Option String) (image_name : String) (tag : Option String) :
    ContainerDefinition :=
  { name := "app"
    image := image_uri registry image_name tag
    essential := true
    environment := environment c
    command := some (c.command.getD [])
    entryPoint := some (c.entrypoint.getD [])
    secrets := some (secretRefs c)
    logConfiguration :=
      if use_fluent_bit c then
        { logDriver := "awsfirelens", options := [] }
      else
        { logDriver := "awslogs"
          options :=
            [("awslogs-group", "/ecs/" ++ cluster_name ++ "/" ++ app_name c),
             ("awslogs-region", aws_region),
             ("awslogs-stream-prefix", "/default")] }
    healthCheck := health c
    portMappings :=
      if port_mappings c = [] then none else some (port_mappings c)
    mountPoints :=
      if has_secret_files c then
        some [{ sourceVolume := "shared-volume", containerPath := "/etc/secrets" }]
      else none
    dependsOn :=
      if app_depends_on c = [] then none else some (app_depends_on c)
    firelensConfiguration := none }

/-- Lines 220-260: the init container that materialises secret files; its
shell command is an opaque template payload executed at deploy time. -/
def init_container (c : Config) (cluster_name aws_region : String) :
    ContainerDefinition :=
  { name := "init-container-for-secret-files"
    image := "amazon/aws-cli"
    essential := false
    entryPoint := some ["/bin/sh"]
    command := some
      ["-c",
       "for secret in $\x7bSECRET_FILES//,/ \x7d; do " ++
       "echo \"Fetching $secret...\"; " ++
       "aws secretsmanager get-secret-value --secret-id $secret --region $AWS_REGION --query SecretString --output text > /etc/secrets/$secret; " ++
       "if [ $? -eq 0 ] && [ -s /etc/secrets/$secret ]; then " ++
       "echo \"✅ Successfully saved $secret to /etc/secrets/$secret\"; " ++
       "else echo \"❌ Failed to save $secret\" >&2; exit 1; " ++
       "fi; " ++
       "done"]
    environment :=
      [{ name := "SECRET_FILES",
         value := String.intercalate "," (c.secret_files.getD []) },
       { name := "AWS_REGION", value := aws_region }]
    secrets := none
    logConfiguration :=
      { logDriver := "awslogs"
        options :=
          [("awslogs-group", "/ecs/" ++ cluster_name ++ "/" ++ app_name c),
           ("awslogs-region", aws_region),
           ("awslogs-stream-prefix", "ssm-file-downloader")] }
    healthCheck := none
    portMappings := none
    mountPoints :=
      some [{ sourceVolume := "shared-volume", containerPath := "/etc/secrets" }]
    dependsOn := none
    firelensConfiguration := none }

/-- Lines 267-292: the fluent-bit sidecar container. -/
def fluent_bit_container (c : Config) (cluster_name aws_region : String)
    (registry : Option String) : ContainerDefinition :=
  { name := "fluent-bit"
    image := fluent_bit_image c registry
    essential := false
    environment := [{ name := "SERVICE_NAME", value := app_name c }]
    command := none
    entryPoint := none
    secrets := none
    logConfiguration :=
      { logDriver := "awslogs"
        options :=
          [("awslogs-group", "/ecs/" ++ cluster_name ++ "/" ++ app_name c),
           ("awslogs-region", aws_region),
           ("awslogs-stream-prefix", "fluentbit")] }
    healthCheck := none
    portMappings := none
    mountPoints := none
    dependsOn := none
    firelensConfiguration := some
      { type := "fluentbit"
        options :=
          [("config-file-type", "file"),
           ("config-file-value", "/extra.conf"),
           ("enable-ecs-log-metadata", "true")] }
  }

/-- Lines 295-329: the otel-collector sidecar container; img is the
resolved otel_collector_image. -/
def otel_container (c : Config) (cluster_name aws_region img : String) :
    ContainerDefinition :=
  { name := "otel-collector"
    image := img
    essential := false
    environment := []
    command := some ["--config", "env:SSM_CONFIG"]
    entryPoint := none
    secrets := none
    logConfiguration :=
      { logDriver := "awslogs"
        options :=
          [("awslogs-group", "/ecs/" ++ cluster_name ++ "/" ++ app_name c),
           ("awslogs-region", aws_region)] }
    healthCheck := none
    portMappings := some
      [{ name := "otel-collector-4317-tcp", containerPort := 4317
         hostPort := 4317, protocol := "tcp", appProtocol := some "grpc" },
       { name := "otel-collector-4318-tcp", containerPort := 4318
         hostPort := 4318, protocol := "tcp", appProtocol := none }]
    mountPoints := none
    dependsOn := none
    firelensConfiguration := none }

/-- Lines 8-356: generate_task_definition, assembling the containers in
source order (init, app, fluent-bit, otel) and the surrounding document. -/
def generate_task_definition (c : Config) (cluster_name aws_region : String)
    (registry : Option String) (image_name : String) (tag : Option String) :
    TaskDefinition :=
  { containerDefinitions :=
      (if has_secret_files c then [init_container c cluster_name aws_region]
       else []) ++
      [app_container c cluster_name aws_region registry image_name tag] ++
      (if use_fluent_bit c then
        [fluent_bit_container c cluster_name aws_region registry]
       else []) ++
      (match otel_collector_image c with
       | some img => [otel_container c cluster_name aws_region img]
       | none => [])
    cpu := toString (c.cpu.getD 256)
    memory := toString (c.memory.getD 512)
    runtimePlatform :=
      { cpuArchitecture := c.cpu_arch.getD "X86_64"
        operatingSystemFamily := "LINUX" }
    family := cluster_name ++ "_" ++ app_name c
    taskRoleArn := c.role_arn.getD ""
    executionRoleArn := c.role_arn.getD ""
    networkMode := "awsvpc"
    requiresCompatibilities := ["FARGATE"]
    volumes :=
      if has_secret_files c then
        some [{ name := "shared-volume", host := [] }]
      else none }

/-! ## generate_step_function.py

Both generators build the same logical state-machine definition.  The SAM
variant (generate_sam_template, lines 184-291) builds it as a Python dict;
the Terraform variant (generate_terraform, lines 29-182) renders it inside
an HCL string whose var.* references resolve to the defaults declared in
the variable blocks at lines 53-103.  We embed the state-machine document
of each variant with references and variables resolved to those values;
numbers such as backoffRate are modelled as rationals (2.0 becomes 2). -/

/-- The retryPolicy block of the workflow YAML. -/
structure RetryPolicyCfg where
  maxAttempts : Option Nat
  backoffRate : Option Rat
  intervalSeconds : Option Nat
  deriving DecidableEq, Repr

/-- The execution block of the workflow YAML. -/
structure ExecutionCfg where
  timeoutSeconds : Option Nat
  deriving DecidableEq, Repr

/-- The workflow configuration document read by both generators. -/
structure WorkflowConfig where
  name : Option String
  description : Option String
  schedule : Option String
  role_arn : Option String
  execution : Option ExecutionCfg
  retryPolicy : Option RetryPolicyCfg
  deriving DecidableEq, Repr

/-- A retryPolicy block with every key absent (the dict.get default). -/
def emptyRetryPolicy : RetryPolicyCfg :=
  { maxAttempts := none, backoffRate := none, intervalSeconds := none }

/-- Lines 43-44 and 193-194: max_attempts = retryPolicy.maxAttempts or 3. -/
def max_attempts (c : WorkflowConfig) : Nat :=
  ((c.retryPolicy.getD emptyRetryPolicy).maxAttempts).getD 3

/-- Lines 45 and 195: backoff_rate = retryPolicy.backoffRate or 2.0. -/
def backoff_rate (c : WorkflowConfig) : Rat :=
  ((c.retryPolicy.getD emptyRetryPolicy).backoffRate).getD 2

/-- Lines 46 and 196: interval_seconds = retryPolicy.intervalSeconds or 60. -/
def interval_seconds (c : WorkflowConfig) : Nat :=
  ((c.retryPolicy.getD emptyRetryPolicy).intervalSeconds).getD 60

/-- Lines 41 and 191: timeout_seconds = execution.timeoutSeconds or 3600. -/
def timeout_seconds (c : WorkflowConfig) : Nat :=
  ((c.execution.getD { timeoutSeconds := none }).timeoutSeconds).getD 3600

/-- One entry of the Retry list of a state. -/
structure RetryRule where
  ErrorEquals : List String
  IntervalSeconds : Nat
  MaxAttempts : Nat
  BackoffRate : Rat
  deriving DecidableEq, Repr

/-- The Parameters block of the RunTask state. -/
structure RunTaskParameters where
  LaunchType : String
  Cluster : String
  TaskDefinition : String
  Subnets : List String
  AssignPublicIp : String
  SecurityGroups : List String
  deriving DecidableEq, Repr

/-- One state of the state machine (here always the single Task state). -/
structure TaskState where
  stateType : String
  Resource : String
  Parameters : RunTaskParameters
  Retry : List RetryRule
  End : Bool
  deriving DecidableEq, Repr

/-- A Step Function state-machine definition; States is the ordered map of
state name to state. -/
structure StateMachineDef where
  Comment : String
  StartAt : String
  TimeoutSeconds : Nat
  States : List (String × TaskState)
  deriving DecidableEq, Repr

/-- generate_step_function.py lines 126-159: the state-machine definition
embedded in the HCL emitted by generate_terraform, with each var.*
reference resolved to the default its variable block declares (lines
53-103: retry_attempts = max_attempts, retry_interval_seconds =
interval_seconds, retry_backoff_rate = backoff_rate, timeout_seconds,
ecs_cluster_arn = cluster_arn, subnet_ids, security_group_ids). -/
def terraform_state_machine (c : WorkflowConfig) (task_arn cluster_arn : String)
    (subnet_ids security_group_ids : List String) : StateMachineDef :=
  { Comment := c.description.getD ""
    StartAt := "RunTask"
    TimeoutSeconds := timeout_seconds c
    States :=
      [("RunTask",
        { stateType := "Task"
          Resource := "arn:aws:states:::ecs:runTask.sync"
          Parameters :=
            { LaunchType := "FARGATE"
              Cluster := cluster_arn
              TaskDefinition := task_arn
              Subnets := subnet_ids
              AssignPublicIp := "ENABLED"
              SecurityGroups := security_group_ids }
          Retry :=
            [{ ErrorEquals := ["States.TaskFailed"]
               IntervalSeconds := interval_seconds c
               MaxAttempts := max_attempts c
               BackoffRate := backoff_rate c }]
          End := true })] }

/-- generate_step_function.py lines 233-262: the Definition block of the
StepFunction resource built by generate_sam_template, with each
\x7bRef: ...\x7d resolved to the default of the referenced template
parameter (lines 205-226: ClusterArn = cluster_arn, SubnetIds =
subnet_ids, SecurityGroupIds = security_group_ids). -/
def sam_state_machine (c : WorkflowConfig) (task_arn cluster_arn : String)
    (subnet_ids security_group_ids : List String) : StateMachineDef :=
  { Comment := c.description.getD ""
    StartAt := "RunTask"
    TimeoutSeconds := timeout_seconds c
    States :=
      [("RunTask",
        { stateType := "Task"
          Resource := "arn:aws:states:::ecs:runTask.sync"
          Parameters :=
            { LaunchType := "FARGATE"
              Cluster := cluster_arn
              TaskDefinition := task_arn
              Subnets := subnet_ids
              AssignPublicIp := "ENABLED"
              SecurityGroups := security_group_ids }
          Retry :=
            [{ ErrorEquals := ["States.TaskFailed"]
               IntervalSeconds := interval_seconds c
               MaxAttempts := max_attempts c
               BackoffRate := backoff_rate c }]
          End := true })] }

/-! ## Concrete configurations used as witnesses and counterexamples -/

/-- A workload config with secret files, fluent-bit and otel all active. -/
def cfgAllSidecars : Config :=
  { emptyConfig with
    secret_files := some ["cred"]
    fluent_bit_collector := some { image_name := some "fb-image" }
    otel_collector := some { image_name := some "otel-image" } }

/-- A workload config whose port key is present with the value zero. -/
def cfgPortZero : Config :=
  { emptyConfig with port := some 0 }

/-- A workload config enabling only the fluent-bit sidecar. -/
def cfgFluentBitOnly : Config :=
  { emptyConfig with
    fluent_bit_collector := some { image_name := some "fb-image" } }

/-- The workflow config of end-to-end scenario 2 of the spec. -/
def wfScenario2 : WorkflowConfig :=
  { name := some "wf", description := none, schedule := some "rate(1 hour)"
    role_arn := none, execution := none
    retryPolicy := some { maxAttempts := some 5, backoffRate := none
                          intervalSeconds := none } }

/-! ## Theorems -/

/-- C1: for every config, the containerDefinitions list returned by
generate_task_definition is in the fixed order
init-container-for-secret-files (present iff secret_files is non-empty),
then app (always present), then fluent-bit (present iff fluent-bit is
enabled), then otel-collector (present iff otel is enabled); the universal
quantification covers all 8 combinations of the three switches. -/
theorem container_order (c : Config) (cluster_name aws_region : String)
    (registry : Option String) (image_name : String) (tag : Option String) :
    (generate_task_definition c cluster_name aws_region registry image_name
        tag).containerDefinitions.map (fun cd => cd.name) =
      (if has_secret_files c then ["init-container-for-secret-files"] else []) ++
      ["app"] ++
      (if use_fluent_bit c then ["fluent-bit"] else []) ++
      (if (otel_collector_image c).isSome then ["otel-collector"] else []) := by
  cases h1 : has_secret_files c <;> cases h2 : use_fluent_bit c <;>
    cases h3 : otel_collector_image c <;>
      simp [generate_task_definition, h1, h2, h3, init_container,
        app_container, fluent_bit_container, otel_container]

/-- C2 counterexample: with secret_files non-empty and fluent-bit enabled,
the fluent-bit sidecar container of the generated task definition carries
no dependsOn key at all, refuting the claim that every later sidecar
depends on the init container with condition SUCCESS. -/
theorem sidecar_no_depends_on_counterexample :
    has_secret_files cfgAllSidecars = true ∧
    use_fluent_bit cfgAllSidecars = true ∧
    ((generate_task_definition cfgAllSidecars "cl" "us-east-1" (some "reg")
        "img" (some "v1")).containerDefinitions.find?
        (fun cd => cd.name == "fluent-bit")).map
        (fun cd => cd.dependsOn) = some none ∧
    ((generate_task_definition cfgAllSidecars "cl" "us-east-1" (some "reg")
        "img" (some "v1")).containerDefinitions.find?
        (fun cd => cd.name == "otel-collector")).map
        (fun cd => cd.dependsOn) = some none := by
  refine ⟨by decide, by decide, by decide, by decide⟩

/-- C2 amended: only the app container carries dependsOn entries; when
secret_files is non-empty it depends on the init container with condition
SUCCESS, when fluent-bit is enabled it additionally depends on fluent-bit
with condition START, and when neither holds the dependsOn key is absent;
every container other than app carries no dependsOn key. -/
theorem app_depends_on_spec (c : Config) (cluster_name aws_region : String)
    (registry : Option String) (image_name : String) (tag : Option String) :
    ((generate_task_definition c cluster_name aws_region registry image_name
        tag).containerDefinitions.find?
        (fun cd => cd.name == "app")).map (fun cd => cd.dependsOn) =
      some (if has_secret_files c || use_fluent_bit c then
              some ((if has_secret_files c then
                      [{ containerName := "init-container-for-secret-files"
                         condition := "SUCCESS" }]
                     else []) ++
                    (if use_fluent_bit c then
                      [{ containerName := "fluent-bit", condition := "START" }]
                     else []))
            else none) ∧
    (generate_task_definition c cluster_name aws_region registry image_name
        tag).containerDefinitions.all
      (fun cd => cd.name == "app" || cd.dependsOn == none) = true := by
  cases h1 : has_secret_files c <;> cases h2 : use_fluent_bit c <;>
    cases h3 : otel_collector_image c <;>
      simp [generate_task_definition, h1, h2, h3, init_container,
        app_container, fluent_bit_container, otel_container, app_depends_on]

/-- C3: the app container logConfiguration has logDriver awsfirelens (with
empty options) iff fluent-bit is enabled, and otherwise logDriver awslogs
with the awslogs-group, awslogs-region and awslogs-stream-prefix options
as stated. -/
theorem app_log_configuration (c : Config) (cluster_name aws_region : String)
    (registry : Option String) (image_name : String) (tag : Option String) :
    ((generate_task_definition c cluster_name aws_region registry image_name
        tag).containerDefinitions.find?
        (fun cd => cd.name == "app")).map (fun cd => cd.logConfiguration) =
      some (if use_fluent_bit c then
              { logDriver := "awsfirelens", options := [] }
            else
              { logDriver := "awslogs"
                options :=
                  [("awslogs-group",
                    "/ecs/" ++ cluster_name ++ "/" ++ app_name c),
                   ("awslogs-region", aws_region),
                   ("awslogs-stream-prefix", "/default")] }) := by
  cases h1 : has_secret_files c <;> cases h2 : use_fluent_bit c <;>
    cases h3 : otel_collector_image c <;>
      simp [generate_task_definition, h1, h2, h3, init_container,
        app_container, fluent_bit_container, otel_container]

/-- C4: the generated task definition carries a volumes key iff
secret_files is non-empty, and when present it is exactly one volume named
shared-volume with an empty host object. -/
theorem volumes_spec (c : Config) (cluster_name aws_region : String)
    (registry : Option String) (image_name : String) (tag : Option String) :
    (generate_task_definition c cluster_name aws_region registry image_name
        tag).volumes =
      (if has_secret_files c then
        some [{ name := "shared-volume", host := [] }]
       else none) := by
  cases h1 : has_secret_files c <;>
    simp [generate_task_definition, h1]

/-- C5: parse_image_parts strips the registry from myregistry.com/app and
preserves the None tag; it splits app:v2 into name app and tag v2; and
whenever a non-empty tag argument is supplied, the returned tag is that
argument, overriding any colon-embedded tag. -/
theorem parse_image_parts_spec :
    parse_image_parts "myregistry.com/app" none = ("app", none) ∧
    parse_image_parts "app:v2" none = ("app", some "v2") ∧
    ∀ (n t : String), t ≠ "" → pyContains n ':' = true →
      (parse_image_parts n (some t)).2 = some t := by
  refine ⟨by decide, by decide, ?_⟩
  intro n t ht _
  have hpt : pyTruthy (some t) = true := by simp [pyTruthy, ht]
  unfold parse_image_parts
  split <;> simp [hpt] <;> split <;> simp

/-- C5 witness: the universal part of parse_image_parts_spec applied at the
image name app:v2 and the explicit tag v9. -/
theorem parse_image_parts_spec_witness :
    (parse_image_parts "app:v2" (some "v9")).2 = some "v9" :=
  parse_image_parts_spec.2.2 "app:v2" "v9" (by decide) (by decide)

/-- C6: in both renderings of the workflow (the state machine embedded in
the Terraform HCL and the one in the SAM template), the single RunTask
state carries exactly one Retry rule, matching States.TaskFailed, with
MaxAttempts, BackoffRate and IntervalSeconds taken from retryPolicy with
defaults 3, 2.0 and 60, and End = true; at the scenario config with
retryPolicy maxAttempts 5 this gives MaxAttempts 5, BackoffRate 2.0 and
IntervalSeconds 60 in both renderings. -/
theorem retry_rule_spec (c : WorkflowConfig) (task_arn cluster_arn : String)
    (subnet_ids security_group_ids : List String) :
    ((terraform_state_machine c task_arn cluster_arn subnet_ids
        security_group_ids).States.map (fun s => (s.1, s.2.Retry, s.2.End)) =
      [("RunTask",
        [{ ErrorEquals := ["States.TaskFailed"]
           IntervalSeconds := interval_seconds c
           MaxAttempts := max_attempts c
           BackoffRate := backoff_rate c }], true)]) ∧
    ((sam_state_machine c task_arn cluster_arn subnet_ids
        security_group_ids).States.map (fun s => (s.1, s.2.Retry, s.2.End)) =
      [("RunTask",
        [{ ErrorEquals := ["States.TaskFailed"]
           IntervalSeconds := interval_seconds c
           MaxAttempts := max_attempts c
           BackoffRate := backoff_rate c }], true)]) ∧
    max_attempts wfScenario2 = 5 ∧
    backoff_rate wfScenario2 = 2 ∧
    interval_seconds wfScenario2 = 60 := by
  refine ⟨rfl, rfl, by decide, by decide, by decide⟩

/-- C7: the otel-collector container is present in the output iff the
config carries an otel_collector block, and its image is the stripped
image_name of that block, falling back to the public default collector
image when the stripped name is empty. -/
theorem otel_inclusion (c : Config) (cluster_name aws_region : String)
    (registry : Option String) (image_name : String) (tag : Option String) :
    ((generate_task_definition c cluster_name aws_region registry image_name
        tag).containerDefinitions.find?
        (fun cd => cd.name == "otel-collector")).map (fun cd => cd.image) =
      c.otel_collector.map (fun oc =>
        if pyStrip (oc.image_name.getD "") = "" then
          "public.ecr.aws/aws-observability/aws-otel-collector:latest"
        else pyStrip (oc.image_name.getD "")) := by
  cases h1 : has_secret_files c <;> cases h2 : use_fluent_bit c <;>
    cases h3 : c.otel_collector <;>
      simp [generate_task_definition, otel_collector_image, h1, h2, h3,
        init_container, app_container, fluent_bit_container, otel_container]

/-- C8 counterexample: a config whose port key is present with value zero
yields an app container with no portMappings key, refuting the claim that
a present main port always contributes a mapping named default. -/
theorem port_zero_counterexample :
    cfgPortZero.port = some 0 ∧
    ((generate_task_definition cfgPortZero "cl" "us-east-1" (some "reg")
        "img" (some "v1")).containerDefinitions.find?
        (fun cd => cd.name == "app")).map (fun cd => cd.portMappings) =
      some none := by
  refine ⟨rfl, by decide⟩

/-- C8 amended: the app container portMappings consist of one mapping
named default for the main port when port is present and truthy (a zero
port, being falsy in Python, contributes none), followed by one mapping
per additional_ports entry under its given name; every mapping sets
containerPort = hostPort = the port, protocol tcp and appProtocol http,
and the portMappings key is absent when no mapping was produced. -/
theorem app_port_mappings_spec (c : Config) (cluster_name aws_region : String)
    (registry : Option String) (image_name : String) (tag : Option String) :
    ((generate_task_definition c cluster_name aws_region registry image_name
        tag).containerDefinitions.find?
        (fun cd => cd.name == "app")).map (fun cd => cd.portMappings) =
      some (
        let pms : List PortMapping :=
          (match c.port with
           | some p =>
               if p ≠ 0 then
                 [{ name := "default", containerPort := p, hostPort := p
                    protocol := "tcp", appProtocol := some "http" }]
               else []
           | none => []) ++
          (c.additional_ports.getD []).map fun np =>
            { name := np.1, containerPort := np.2, hostPort := np.2
              protocol := "tcp", appProtocol := some "http" }
        if pms = [] then none else some pms) := by
  cases h1 : has_secret_files c <;> cases h2 : use_fluent_bit c <;>
    cases h3 : otel_collector_image c <;>
      simp [generate_task_definition, h1, h2, h3, init_container,
        app_container, fluent_bit_container, otel_container, port_mappings]

/-- C9: the generated task definition sets taskRoleArn and executionRoleArn
to the same value, the role_arn of the config, which defaults to the empty
string when the key is absent. -/
theorem role_arn_spec (c : Config) (cluster_name aws_region : String)
    (registry : Option String) (image_name : String) (tag : Option String) :
    (generate_task_definition c cluster_name aws_region registry image_name
        tag).taskRoleArn = c.role_arn.getD "" ∧
    (generate_task_definition c cluster_name aws_region registry image_name
        tag).executionRoleArn = c.role_arn.getD "" := by
  exact ⟨rfl, rfl⟩

/-- C10: when fluent-bit is enabled, its container image is the raw
f-string registry/image_name (never passed through parse_image_parts and
carrying no tag component of its own), so a None registry produces an
image beginning with the literal text None/; the second conjunct exhibits
this at a concrete config with no registry. -/
theorem fluent_bit_image_spec (c : Config) (cluster_name aws_region : String)
    (registry : Option String) (image_name : String) (tag : Option String) :
    ((generate_task_definition c cluster_name aws_region registry image_name
        tag).containerDefinitions.find?
        (fun cd => cd.name == "fluent-bit")).map (fun cd => cd.image) =
      (if use_fluent_bit c then
        some (pyStr registry ++ "/" ++ fluent_bit_image_name c)
       else none) ∧
    ((generate_task_definition cfgFluentBitOnly "cl" "eu-west-1" none "img"
        (some "v1")).containerDefinitions.find?
        (fun cd => cd.name == "fluent-bit")).map (fun cd => cd.image) =
      some "None/fb-image" := by
  refine ⟨?_, by decide⟩
  cases h1 : has_secret_files c <;> cases h2 : use_fluent_bit c <;>
    cases h3 : otel_collector_image c <;>
      simp [generate_task_definition, h1, h2, h3, init_container,
        app_container, fluent_bit_container, otel_container,
        fluent_bit_image, h2]

end TaskDeploy
